import Mathlib

/-!
Verification of the invest-bot ledger, alert queries, AI-client fallback logic
and notification gating, as a shallow embedding of the Python sources
(src/database.py, src/gpt_client.py, src/handlers.py, src/scheduler.py,
src/market_data.py) in Lean 4.

Conventions of the embedding:
* SQL tables become Lean lists of structures; an SQL UPDATE/DELETE with a
  WHERE clause becomes List.map / List.filter guarded by the same predicate.
* Python / SQL floats (REAL columns) are modelled as exact rationals.
* Nullable columns become Option values; SQL three-valued comparisons with
  NULL are false, which Option.any / pattern matching reproduces.
* Fallible operations return a flag or an Option rather than raising.
-/

namespace InvestBot

/-- Row of the positions table (database.py, init_db): user_id, ticker,
quantity, avg_price, nullable current_price, target_price (default 0). -/
structure Position where
  user_id : Int
  ticker : String
  quantity : Int
  avg_price : ℚ
  current_price : Option ℚ
  target_price : ℚ
deriving DecidableEq, Repr

/-- Row of the orders table (database.py, init_db). -/
structure OrderRow where
  user_id : Int
  order_id : String
  ticker : String
  quantity : Int
  price : ℚ
  order_type : String
  status : String
  total_amount : ℚ
deriving DecidableEq, Repr

/-- Row of the history table (database.py, init_db). -/
structure HistoryRow where
  user_id : Int
  operation_type : String
  ticker : String
  quantity : Int
  price : ℚ
  total_amount : ℚ
  commission : ℚ
  profit_loss : ℚ
deriving DecidableEq, Repr

/-- Row of the user_settings table (database.py, init_db). -/
structure UserSettings where
  user_id : Int
  risk_level : String
  max_investment_amount : ℚ
  auto_invest : Bool
  notifications : Bool
  daily_market_analysis : Bool
  weekly_portfolio_report : Bool
  target_price_alerts : Bool
  price_updates : Bool
deriving DecidableEq, Repr

/-- The database state touched by the save-order path. -/
structure DB where
  positions : List Position
  orders : List OrderRow
  history : List HistoryRow
deriving DecidableEq, Repr

/-- The WHERE clause "user_id = $u AND ticker = $t" used by every
positions query in database.py. -/
def posKey (u : Int) (t : String) (p : Position) : Bool :=
  p.user_id == u && p.ticker == t

/-- database.py _update_position_buy: if a row for (u, t) exists, set
quantity, avg_price (weighted average) and current_price on every row
matching the WHERE clause; otherwise INSERT a fresh row.  The division is
rational division (Python would raise on new_quantity = 0; the claims only
use positive quantities, where the two agree). -/
def _update_position_buy (ps : List Position) (u : Int) (t : String)
    (q : Int) (price : ℚ) : List Position :=
  match ps.find? (posKey u t) with
  | some pos =>
      let new_quantity : Int := pos.quantity + q
      let new_avg_price : ℚ :=
        (pos.avg_price * (pos.quantity : ℚ) + price * (q : ℚ)) / (new_quantity : ℚ)
      ps.map (fun p =>
        if posKey u t p then
          { p with quantity := new_quantity, avg_price := new_avg_price,
                   current_price := some price }
        else p)
  | none =>
      ps ++ [{ user_id := u, ticker := t, quantity := q, avg_price := price,
               current_price := some price, target_price := 0 }]

/-- database.py _update_position_sell: clamp the new quantity at 0; UPDATE
the row while positive, DELETE it otherwise; no row, no effect. -/
def _update_position_sell (ps : List Position) (u : Int) (t : String)
    (q : Int) (price : ℚ) : List Position :=
  match ps.find? (posKey u t) with
  | some pos =>
      let new_quantity : Int := max 0 (pos.quantity - q)
      if 0 < new_quantity then
        ps.map (fun p =>
          if posKey u t p then
            { p with quantity := new_quantity, current_price := some price }
          else p)
      else
        ps.filter (fun p => !(posKey u t p))
  | none => ps

/-- Python str.upper, as used on order types (ASCII order-type strings,
where Char.toUpper agrees with Python). -/
def pyUpper (s : String) : String :=
  String.mk (s.toList.map Char.toUpper)

/-- Python str.lower, as used on order types. -/
def pyLower (s : String) : String :=
  String.mk (s.toList.map Char.toLower)

/-- database.py save_order: INSERT the order row (status filled), apply the
BUY or SELL position update, then compute the SELL profit/loss from the
positions table as it stands AFTER that update (the code fetches avg_price
only at this point), then INSERT the history row.  A duplicate order_id
violates the UNIQUE constraint: the transaction rolls back and the function
returns False with the database unchanged. -/
def save_order (db : DB) (user_id : Int) (ticker : String) (quantity : Int)
    (price : ℚ) (order_type : String) (total_amount : ℚ)
    (order_id : String) : Bool × DB :=
  if (db.orders.map (fun o => o.order_id)).contains order_id then
    (false, db)
  else
    let orders1 := db.orders ++
      [{ user_id := user_id, order_id := order_id, ticker := ticker,
         quantity := quantity, price := price, order_type := order_type,
         status := "filled", total_amount := total_amount }]
    let positions1 :=
      if pyUpper order_type == "BUY" then
        _update_position_buy db.positions user_id ticker quantity price
      else if pyUpper order_type == "SELL" then
        _update_position_sell db.positions user_id ticker quantity price
      else db.positions
    let profit_loss : ℚ :=
      if pyUpper order_type == "SELL" then
        match positions1.find? (posKey user_id ticker) with
        | some pos => (price - pos.avg_price) * (quantity : ℚ)
        | none => 0
      else 0
    (true,
     { positions := positions1
       orders := orders1
       history := db.history ++
         [{ user_id := user_id, operation_type := pyLower order_type,
            ticker := ticker, quantity := quantity, price := price,
            total_amount := total_amount, commission := 0,
            profit_loss := profit_loss }] })

/-- An order request, as handed to save_order; used to state invariants over
sequences of save-order operations. -/
structure OrderReq where
  user_id : Int
  ticker : String
  quantity : Int
  price : ℚ
  order_type : String
  total_amount : ℚ
  order_id : String
deriving DecidableEq, Repr

/-- Run a sequence of save-order operations, threading the database state. -/
def runOrders (db : DB) (os : List OrderReq) : DB :=
  os.foldl
    (fun d o =>
      (save_order d o.user_id o.ticker o.quantity o.price o.order_type
        o.total_amount o.order_id).2) db

/-- Every position row has a positive quantity (the spec's invariant that a
row with quantity 0 must not exist, plus non-negativity). -/
def positionsPositive (ps : List Position) : Prop :=
  ∀ p ∈ ps, 0 < p.quantity

/-- database.py get_user_settings defaults, returned when no settings row
exists for the user. -/
def defaultSettings (u : Int) : UserSettings :=
  { user_id := u, risk_level := "medium", max_investment_amount := 10000,
    auto_invest := false, notifications := true,
    daily_market_analysis := true, weekly_portfolio_report := true,
    target_price_alerts := true, price_updates := false }

/-- database.py get_user_settings: the stored row, or the default record. -/
def get_user_settings (ss : List UserSettings) (u : Int) : UserSettings :=
  match ss.find? (fun s => s.user_id == u) with
  | some s => s
  | none => defaultSettings u

/-- The kwargs accepted by database.py update_user_settings: an arbitrary
subset of the eight recognized setting columns (a present field is written,
an absent one left alone). -/
structure SettingsUpdate where
  risk_level : Option String := none
  max_investment_amount : Option ℚ := none
  auto_invest : Option Bool := none
  notifications : Option Bool := none
  daily_market_analysis : Option Bool := none
  weekly_portfolio_report : Option Bool := none
  target_price_alerts : Option Bool := none
  price_updates : Option Bool := none
deriving DecidableEq, Repr

/-- The SET clause built by update_user_settings: write each supplied
column, keep the rest. -/
def applySettingsUpdate (s : UserSettings) (k : SettingsUpdate) : UserSettings :=
  { s with
    risk_level := k.risk_level.getD s.risk_level
    max_investment_amount := k.max_investment_amount.getD s.max_investment_amount
    auto_invest := k.auto_invest.getD s.auto_invest
    notifications := k.notifications.getD s.notifications
    daily_market_analysis := k.daily_market_analysis.getD s.daily_market_analysis
    weekly_portfolio_report := k.weekly_portfolio_report.getD s.weekly_portfolio_report
    target_price_alerts := k.target_price_alerts.getD s.target_price_alerts
    price_updates := k.price_updates.getD s.price_updates }

/-- database.py update_user_settings: a bare UPDATE user_settings SET ...
WHERE user_id = $1.  There is no INSERT: a user without a settings row is
simply not matched by the WHERE clause. -/
def update_user_settings (tbl : List UserSettings) (u : Int)
    (k : SettingsUpdate) : List UserSettings :=
  tbl.map (fun s => if s.user_id == u then applySettingsUpdate s k else s)

/-- The target_price_alerts value of the user_settings row joined to a
position by user_id (SQL JOIN on the primary key; no row means the position
is dropped by the join). -/
def userAlertsEnabled (ss : List UserSettings) (u : Int) : Bool :=
  match ss.find? (fun s => s.user_id == u) with
  | some s => s.target_price_alerts
  | none => false

/-- database.py get_positions_for_alerts: positions joined to user_settings
filtered by target_price > 0 AND target_price_alerts = TRUE.  The query has
no condition on current_price.  (The SQL projects four columns; the whole
row is kept here, which is immaterial to membership.) -/
def get_positions_for_alerts (ps : List Position) (ss : List UserSettings) :
    List Position :=
  ps.filter (fun p =>
    decide (0 < p.target_price) && userAlertsEnabled ss p.user_id)

/-- SQL comparison current_price >= target_price on a nullable column:
false when NULL. -/
def targetReached (p : Position) : Bool :=
  match p.current_price with
  | some c => decide (p.target_price ≤ c)
  | none => false

/-- database.py check_target_prices_achieved: the one user's positions with
target_price > 0 AND current_price >= target_price.  The query has no
condition on the target_price_alerts toggle. -/
def check_target_prices_achieved (u : Int) (ps : List Position) :
    List Position :=
  ps.filter (fun p =>
    p.user_id == u && decide (0 < p.target_price) && targetReached p)

/-- The four notification-category columns a scheduler job can key on. -/
inductive NotifCategory where
  | daily
  | weekly
  | targets
  | prices
deriving DecidableEq, Repr

/-- Column selected by database.py get_users_with_notification_type. -/
def categoryToggle (s : UserSettings) : NotifCategory → Bool
  | .daily => s.daily_market_analysis
  | .weekly => s.weekly_portfolio_report
  | .targets => s.target_price_alerts
  | .prices => s.price_updates

/-- database.py get_users_with_notification_type: users whose given
category column is TRUE. -/
def get_users_with_notification_type (ss : List UserSettings)
    (c : NotifCategory) : List UserSettings :=
  ss.filter (fun s => categoryToggle s c)

/-- The candidate pipeline shared by every scheduler job (scheduler.py,
update_market_prices / update_market_prices_with_timezone /
daily_market_analysis / weekly_portfolio_report / check_target_prices /
check_target_prices_with_timezone): fetch the users with the category
toggle on, re-check each user's master notifications toggle through
get_user_settings, then apply further per-user send conditions (work-time
window, non-empty portfolio, achieved targets, significant price moves),
abstracted here as an arbitrary predicate since they only restrict the
recipient set.  The result is the list of user ids a push is sent to. -/
def jobRecipients (ss : List UserSettings) (c : NotifCategory)
    (extraSend : Int → Bool) : List Int :=
  (((get_users_with_notification_type ss c).filter
      (fun s => (get_user_settings ss s.user_id).notifications)).filter
      (fun s => extraSend s.user_id)).map (fun s => s.user_id)

/-- An investment idea as parsed from the AI response (gpt_client.py):
the prompt schema is ticker/action/target_price/target_timeframe/reasoning;
the price field is attached afterwards.  target_price is optional because
the code reads it with a .get carrying a 100.0 default. -/
structure Idea where
  ticker : String
  action : String
  target_price : Option ℚ
  reasoning : String := ""
  price : Option ℚ := none
deriving DecidableEq, Repr

/-- Modelled from the spec: the Market Data Gateway's batch price lookup
(get_multiple_moex_prices), called from gpt_client.py, scheduler.py and
handlers.py but absent from the supplied sources.  Per the spec it fans out
single-ticker lookups (modelled by the oracle) and collects a ticker-price
map, omitting any ticker whose lookup failed. -/
def get_multiple_moex_prices (oracle : String → Option ℚ)
    (tickers : List String) : List (String × ℚ) :=
  tickers.filterMap (fun t => (oracle t).map (fun p => (t, p)))

/-- gpt_client.py get_investment_ideas, price-attachment loop: for each
idea take the real batch-lookup price when present, otherwise synthesize
target_price (default 100.0) times 0.9. -/
def attach_real_prices (oracle : String → Option ℚ) (ideas : List Idea) :
    List Idea :=
  let real_prices := get_multiple_moex_prices oracle (ideas.map (fun i => i.ticker))
  ideas.map (fun idea =>
    match real_prices.lookup idea.ticker with
    | some p => { idea with price := some p }
    | none => { idea with price := some ((idea.target_price.getD 100) * (9 / 10)) })

/-- ASCII whitespace, for Python str.strip (the strings stripped here are
ASCII JSON payloads). -/
def isSpaceChar (c : Char) : Bool :=
  c == ' ' || c == '\t' || c == '\n' || c == '\r'

/-- Python str.strip: drop leading and trailing whitespace. -/
def pyStrip (s : String) : String :=
  String.mk (((s.toList.dropWhile isSpaceChar).reverse.dropWhile isSpaceChar).reverse)

/-- Python str.find for a single character: index of first occurrence. -/
def pyFindChar (l : List Char) (c : Char) : Option Nat :=
  l.findIdx? (fun x => x == c)

/-- Python str.rfind for a single character: index of last occurrence. -/
def pyRFindChar (l : List Char) (c : Char) : Option Nat :=
  (l.reverse.findIdx? (fun x => x == c)).map (fun i => l.length - 1 - i)

/-- gpt_client.py get_investment_ideas, array extraction: start_idx =
content.find of the opening bracket; end_idx = content.rfind of the closing
bracket plus one (which is 0, never -1, when absent); return the slice when
start_idx is found, none otherwise. -/
def extract_json_array (content : String) : Option String :=
  let cs := content.toList
  match pyFindChar cs '[' with
  | none => none
  | some s =>
      let e : Nat :=
        match pyRFindChar cs ']' with
        | some j => j + 1
        | none => 0
      some (String.mk ((cs.take e).drop s))

/-- Outcome of the _make_request call and response-shape checks in
gpt_client.py get_investment_ideas: raised covers an exception from
_make_request (all models failed, network error, timeout); badShape covers
a falsy response, a missing or empty choices list, and a missing
message/content key (a KeyError, caught by the handler); content carries
the extracted message text. -/
inductive RequestResult where
  | raised
  | badShape
  | content (s : String)
deriving DecidableEq, Repr

/-- gpt_client.py XAIClient.get_investment_ideas, control flow: no API key
gives an empty list; every failure of the request, of the response shape,
of the array extraction or of the JSON parse gives an empty list (these are
the code's early returns and its except branches); only a successful parse
reaches the price-attachment loop.  The JSON parser itself (json.loads plus
the idea fields' presence) is third-party and modelled as a parameter
returning none on failure. -/
def get_investment_ideas (hasKey : Bool) (req : RequestResult)
    (parseIdeas : String → Option (List Idea))
    (oracle : String → Option ℚ) : List Idea :=
  if !hasKey then []
  else
    match req with
    | .raised => []
    | .badShape => []
    | .content raw =>
        let content := pyStrip raw
        if content = "" then []
        else
          match extract_json_array content with
          | none => []
          | some js =>
              if pyStrip js = "" then []
              else
                match parseIdeas js with
                | none => []
                | some ideas => attach_real_prices oracle ideas

/-- The analysis dict parsed from the AI response for one ticker
(gpt_client.py analyze_stock / handlers.py cmd_analyze_stock); only the
fields the sanity check reads are modelled. -/
structure StockAnalysis where
  recommendation : Option String
  target_price : Option ℚ
  current_price : Option ℚ
deriving DecidableEq, Repr

/-- Python truthiness of an optional number: present and nonzero. -/
def truthy (x : Option ℚ) : Bool :=
  match x with
  | none => false
  | some v => !(v == 0)

/-- Python round(x, 2), as exact rational rounding to two decimal places
(Mathlib round is half-up; Python differs only on exact half-cent ties). -/
def round2 (x : ℚ) : ℚ :=
  ((round (x * 100) : ℤ) : ℚ) / 100

/-- handlers.py cmd_analyze_stock, lines 332-348: when both prices are
truthy and the target is more than 5 times the current price or less than
0.2 of it, recompute it from the recommendation (BUY +20 percent, SELL
-15 percent, anything else treated as HOLD +5 percent) and store it rounded
to two decimals; otherwise leave the analysis untouched. -/
def cmd_analyze_correct_target (a : StockAnalysis) : StockAnalysis :=
  if truthy a.target_price && truthy a.current_price then
    let t := a.target_price.getD 0
    let c := a.current_price.getD 0
    if c * 5 < t ∨ t < c / 5 then
      let recommendation := a.recommendation.getD "HOLD"
      let t1 : ℚ :=
        if recommendation = "BUY" then c * (6 / 5)
        else if recommendation = "SELL" then c * (17 / 20)
        else c * (21 / 20)
      { a with target_price := some (round2 t1) }
    else a
  else a

/-- handlers.py confirm_trade: read the selected idea, quantity and total
from the conversation state and persist through save_order, passing the
idea's action string through verbatim as the order type.  A missing price
key raises a KeyError that the handler's catch-all turns into an error
message with nothing saved. -/
def confirm_trade (db : DB) (user_id : Int) (idea : Idea) (quantity : Int)
    (total_cost : ℚ) (order_id : String) : Bool × DB :=
  match idea.price with
  | some p =>
      save_order db user_id idea.ticker quantity p idea.action total_cost order_id
  | none => (false, db)

/-! ## Helper lemmas -/

/-- A keyed UPDATE (map applying f to rows matching k, where f preserves the
key) commutes with find? on the same key. -/
theorem find?_map_update {α : Type} (l : List α) (k : α → Bool) (f : α → α)
    (hk : ∀ a, k (f a) = k a) :
    (l.map (fun a => if k a then f a else a)).find? k = (l.find? k).map f := by
  induction l with
  | nil => rfl
  | cons hd tl ih =>
    by_cases hh : k hd = true
    · simp [List.find?_cons, hh, hk]
    · simp [List.find?_cons, hh, hk, ih]

/-- A keyed DELETE (filter dropping rows matching k) makes find? on the same
key come up empty. -/
theorem find?_filter_not {α : Type} (l : List α) (k : α → Bool) :
    (l.filter (fun a => !(k a))).find? k = none := by
  rw [List.find?_eq_none]
  intro a ha
  have h := List.mem_filter.mp ha
  simpa using h.2

/-- Lookup in the batch price map of a failed ticker is empty. -/
theorem lookup_batch_none (oracle : String → Option ℚ) (t : String)
    (h : oracle t = none) :
    ∀ ts : List String, (get_multiple_moex_prices oracle ts).lookup t = none := by
  intro ts
  induction ts with
  | nil => rfl
  | cons hd tl ih =>
    unfold get_multiple_moex_prices at ih ⊢
    rw [List.filterMap_cons]
    cases ho : oracle hd with
    | none => simpa using ih
    | some p =>
      have hb : (t == hd) = false := by
        apply beq_eq_false_iff_ne.mpr
        intro he
        rw [he] at h
        rw [h] at ho
        cases ho
      simp only [Option.map_some']
      simpa [List.lookup, hb] using ih

/-- Lookup in the batch price map coincides with the single-ticker oracle on
every ticker that was queried. -/
theorem lookup_batch (oracle : String → Option ℚ) (ts : List String)
    (t : String) (hmem : t ∈ ts) :
    (get_multiple_moex_prices oracle ts).lookup t = oracle t := by
  induction ts with
  | nil => cases hmem
  | cons hd tl ih =>
    unfold get_multiple_moex_prices at ih ⊢
    rw [List.filterMap_cons]
    cases ho : oracle hd with
    | some p =>
      by_cases ht : t = hd
      · rw [ht]
        simp [List.lookup, ho]
      · have hb : (t == hd) = false := beq_eq_false_iff_ne.mpr ht
        have hmem2 : t ∈ tl := by
          cases List.mem_cons.mp hmem with
          | inl h => exact absurd h ht
          | inr h => exact h
        simp only [Option.map_some']
        simpa [List.lookup, hb] using ih hmem2
    | none =>
      simp only [Option.map_none']
      by_cases ht : t = hd
      · rw [ht, ho]
        exact lookup_batch_none oracle hd ho tl
      · have hmem2 : t ∈ tl := by
          cases List.mem_cons.mp hmem with
          | inl h => exact absurd h ht
          | inr h => exact h
        exact ih hmem2

/-- A buy into a position list of positive quantities, of a positive
quantity, keeps every quantity positive. -/
theorem _update_position_buy_positive (ps : List Position) (u : Int)
    (t : String) (q : Int) (price : ℚ) (h0 : positionsPositive ps)
    (hq : 0 < q) :
    positionsPositive (_update_position_buy ps u t q price) := by
  unfold _update_position_buy
  cases hf : ps.find? (posKey u t) with
  | none =>
    intro p hp
    rcases List.mem_append.mp hp with h | h
    · exact h0 p h
    · rcases List.mem_singleton.mp h with rfl
      exact hq
  | some pos =>
    intro p hp
    rcases List.mem_map.mp hp with ⟨p0, hp0, rfl⟩
    by_cases hkey : posKey u t p0
    · have hposmem : pos ∈ ps := List.mem_of_find?_eq_some hf
      have hpos : 0 < pos.quantity := h0 pos hposmem
      simp only [hkey, if_true]
      exact add_pos hpos hq
    · simp only [hkey, if_false, Bool.false_eq_true]
      exact h0 p0 hp0

/-- A sell from a position list of positive quantities keeps every quantity
positive: the updating branch is guarded by positivity and the exhausted
branch deletes the row. -/
theorem _update_position_sell_positive (ps : List Position) (u : Int)
    (t : String) (q : Int) (price : ℚ) (h0 : positionsPositive ps) :
    positionsPositive (_update_position_sell ps u t q price) := by
  unfold _update_position_sell
  cases hf : ps.find? (posKey u t) with
  | none => exact h0
  | some pos =>
    by_cases hpos : 0 < max 0 (pos.quantity - q)
    · simp only [hpos, if_true]
      intro p hp
      rcases List.mem_map.mp hp with ⟨p0, hp0, rfl⟩
      by_cases hkey : posKey u t p0
      · simpa [hkey] using hpos
      · simp only [hkey, if_false, Bool.false_eq_true]
        exact h0 p0 hp0
    · simp only [hpos, if_false]
      intro p hp
      exact h0 p (List.mem_of_mem_filter hp)

/-- One save_order call with a positive quantity preserves positivity of all
position quantities. -/
theorem save_order_positions_positive (db : DB) (u : Int) (t : String)
    (q : Int) (price : ℚ) (ot : String) (total : ℚ) (oid : String)
    (h0 : positionsPositive db.positions) (hq : 0 < q) :
    positionsPositive ((save_order db u t q price ot total oid).2.positions) := by
  unfold save_order
  by_cases hdup : ((db.orders.map (fun o => o.order_id)).contains oid) = true
  · rw [if_pos hdup]
    exact h0
  · rw [if_neg hdup]
    show positionsPositive
      (if pyUpper ot == "BUY" then
        _update_position_buy db.positions u t q price
       else if pyUpper ot == "SELL" then
        _update_position_sell db.positions u t q price
       else db.positions)
    by_cases hb : (pyUpper ot == "BUY") = true
    · rw [if_pos hb]
      exact _update_position_buy_positive db.positions u t q price h0 hq
    · rw [if_neg hb]
      by_cases hs : (pyUpper ot == "SELL") = true
      · rw [if_pos hs]
        exact _update_position_sell_positive db.positions u t q price h0
      · rw [if_neg hs]
        exact h0

/-! ## Claim theorems -/

/-- Claim C1 (code_bug evidence): save_order computes the SELL realized
profit/loss only after _update_position_sell has run, so a sell that closes
the position entirely finds no row and records profit/loss 0 instead of
(sale_price - avg_cost) x quantity.  Concretely: holding 5 shares of SBER at
average cost 250, selling all 5 at 300 deletes the position and records a
history entry with profit/loss 0, not the 250 the spec requires; a partial
sell of 3 of the 5 shares still finds the surviving row and records the
correct 150. -/
theorem save_order_full_close_sell_records_zero_pnl :
    ((save_order
        { positions := [{ user_id := 1, ticker := "SBER", quantity := 5,
                          avg_price := 250, current_price := some 250,
                          target_price := 0 }], orders := [], history := [] }
        1 "SBER" 5 300 "SELL" 1500 "ORD1").2.history.map
          (fun h => h.profit_loss) = [0])
  ∧ ((save_order
        { positions := [{ user_id := 1, ticker := "SBER", quantity := 5,
                          avg_price := 250, current_price := some 250,
                          target_price := 0 }], orders := [], history := [] }
        1 "SBER" 5 300 "SELL" 1500 "ORD1").2.positions = [])
  ∧ ((save_order
        { positions := [{ user_id := 1, ticker := "SBER", quantity := 5,
                          avg_price := 250, current_price := some 250,
                          target_price := 0 }], orders := [], history := [] }
        1 "SBER" 3 300 "SELL" 900 "ORD2").2.history.map
          (fun h => h.profit_loss) = [150]) := by
  refine ⟨by decide, by decide, ?_⟩
  have h1 : pyUpper "SELL" = "SELL" := rfl
  have h2 : pyLower "SELL" = "sell" := rfl
  simp [save_order, _update_position_sell, posKey, h1, h2, List.find?]
  norm_num

/-- Claim C3: a BUY fill against an existing position updates it to quantity
q0 + q, weighted-average cost (a0 q0 + p q) / (q0 + q) and current price p;
against no existing position it inserts a fresh row with quantity q and both
prices equal to p. -/
theorem buy_position_update_spec (ps : List Position) (u : Int) (t : String)
    (q : Int) (price : ℚ) :
    (∀ pos, ps.find? (posKey u t) = some pos →
      (_update_position_buy ps u t q price).find? (posKey u t) =
        some { pos with
          quantity := pos.quantity + q,
          avg_price := (pos.avg_price * (pos.quantity : ℚ) + price * (q : ℚ)) /
            ((pos.quantity : ℚ) + (q : ℚ)),
          current_price := some price })
  ∧ (ps.find? (posKey u t) = none →
      _update_position_buy ps u t q price =
        ps ++ [{ user_id := u, ticker := t, quantity := q, avg_price := price,
                 current_price := some price, target_price := 0 }]) := by
  constructor
  · intro pos hf
    unfold _update_position_buy
    rw [hf]
    rw [find?_map_update ps (posKey u t) _ (fun a => by simp [posKey])]
    rw [hf]
    simp [Int.cast_add]
  · intro hf
    unfold _update_position_buy
    rw [hf]

/-- Claim C3 witness: buying 5 at 280 into a position of 10 at 275 yields
quantity 15 and average cost 830/3. -/
theorem buy_position_update_spec_witness :
    (_update_position_buy
        [{ user_id := 1, ticker := "SBER", quantity := 10, avg_price := 275,
           current_price := some 275, target_price := 0 }]
        1 "SBER" 5 280).find? (posKey 1 "SBER") =
      some { user_id := 1, ticker := "SBER", quantity := 15,
             avg_price := 830 / 3, current_price := some 280,
             target_price := 0 } := by
  have h := (buy_position_update_spec
    [{ user_id := 1, ticker := "SBER", quantity := 10, avg_price := 275,
       current_price := some 275, target_price := 0 }] 1 "SBER" 5 280).1
    { user_id := 1, ticker := "SBER", quantity := 10, avg_price := 275,
      current_price := some 275, target_price := 0 } (by decide)
  rw [h]
  simp only [Option.some.injEq, Position.mk.injEq]
  norm_num

/-- Claim C4: after any sequence of save-order operations with positive
order quantities, starting from positions all of positive quantity, every
position row still has positive quantity: a sell clamps at zero and deletes
the exhausted row, so no zero or negative quantity row ever exists. -/
theorem save_order_sequences_keep_positions_positive (db : DB)
    (os : List OrderReq) (h0 : positionsPositive db.positions)
    (hq : ∀ o ∈ os, 0 < o.quantity) :
    positionsPositive (runOrders db os).positions := by
  induction os generalizing db with
  | nil => exact h0
  | cons o os ih =>
    have h1 := save_order_positions_positive db o.user_id o.ticker o.quantity
      o.price o.order_type o.total_amount o.order_id h0
      (hq o (List.mem_cons_self o os))
    exact ih _ h1 (fun o2 h2 => hq o2 (List.mem_cons_of_mem o h2))

/-- Claim C4 witness: overselling (7 from a position of 5) then buying 3
leaves a portfolio with no zero or negative quantity row. -/
theorem save_order_sequences_keep_positions_positive_witness :
    positionsPositive (runOrders
      { positions := [{ user_id := 1, ticker := "SBER", quantity := 5,
                        avg_price := 250, current_price := some 250,
                        target_price := 0 }], orders := [], history := [] }
      [{ user_id := 1, ticker := "SBER", quantity := 7, price := 300,
         order_type := "SELL", total_amount := 2100, order_id := "A" },
       { user_id := 1, ticker := "GAZP", quantity := 3, price := 175,
         order_type := "BUY", total_amount := 525, order_id := "B" }]).positions := by
  exact save_order_sequences_keep_positions_positive _ _
    (by intro p hp; fin_cases hp; decide)
    (by intro o ho; fin_cases ho <;> · decide)

/-- Claim C2 counterexample: a position with target price 300 whose current
price 295 has NOT reached the target, owned by a user with target-price
alerts enabled, is nevertheless returned by get_positions_for_alerts — the
query filters only on target_price > 0 and the alerts toggle. -/
theorem get_positions_for_alerts_returns_below_target :
    ({ user_id := 1, ticker := "SBER", quantity := 10, avg_price := 250,
       current_price := some 295, target_price := 300 } : Position) ∈
      get_positions_for_alerts
        [{ user_id := 1, ticker := "SBER", quantity := 10, avg_price := 250,
           current_price := some 295, target_price := 300 }]
        [defaultSettings 1]
  ∧ (295 : ℚ) < 300
  ∧ (defaultSettings 1).target_price_alerts = true := by
  refine ⟨by decide, by norm_num, by decide⟩

/-- Claim C2 (amended): membership in the two target-alert queries.  A
position is returned by get_positions_for_alerts exactly when its target
price is positive and its owner's settings row has target-price alerts
enabled (the current price is not consulted); it is returned by the
per-user check_target_prices_achieved exactly when it belongs to that user,
its target price is positive and its current price has reached or exceeded
the target (the alerts toggle is not consulted).  The scheduler obtains the
conjunction of all three conditions by running the per-user query only for
users selected by the alerts toggle. -/
theorem target_alert_queries_membership (ps : List Position)
    (ss : List UserSettings) (u : Int) (p : Position) :
    (p ∈ get_positions_for_alerts ps ss ↔
      p ∈ ps ∧ 0 < p.target_price ∧ userAlertsEnabled ss p.user_id = true)
  ∧ (p ∈ check_target_prices_achieved u ps ↔
      p ∈ ps ∧ p.user_id = u ∧ 0 < p.target_price ∧ targetReached p = true) := by
  constructor
  · simp [get_positions_for_alerts, List.mem_filter, and_assoc]
  · simp [check_target_prices_achieved, List.mem_filter, and_assoc]

/-- Claim C2 amended-theorem witness at a concrete input: a position with
current price 305 above its target 300 and the toggle on is in both query
results. -/
theorem target_alert_queries_membership_witness :
    ({ user_id := 1, ticker := "SBER", quantity := 10, avg_price := 250,
       current_price := some 305, target_price := 300 } : Position) ∈
      get_positions_for_alerts
        [{ user_id := 1, ticker := "SBER", quantity := 10, avg_price := 250,
           current_price := some 305, target_price := 300 }]
        [defaultSettings 1]
  ∧ ({ user_id := 1, ticker := "SBER", quantity := 10, avg_price := 250,
       current_price := some 305, target_price := 300 } : Position) ∈
      check_target_prices_achieved 1
        [{ user_id := 1, ticker := "SBER", quantity := 10, avg_price := 250,
           current_price := some 305, target_price := 300 }] := by
  constructor
  · exact (target_alert_queries_membership _ [defaultSettings 1] 1 _).1.mpr
      ⟨by decide, by norm_num, by decide⟩
  · exact (target_alert_queries_membership
      [{ user_id := 1, ticker := "SBER", quantity := 10, avg_price := 250,
         current_price := some 305, target_price := 300 }] [] 1 _).2.mpr
      ⟨by decide, rfl, by norm_num, by decide⟩

/-- Claim C5: the idea-generation price attachment equals, idea by idea,
the single-ticker oracle's real price when the batch lookup has one, and
target_price (default 100) times 0.9 otherwise; every returned idea
carries a price. -/
theorem ideas_price_attachment (oracle : String → Option ℚ)
    (ideas : List Idea) :
    (attach_real_prices oracle ideas =
      ideas.map (fun idea =>
        { idea with price := some ((oracle idea.ticker).getD
            ((idea.target_price.getD 100) * (9 / 10))) }))
  ∧ (∀ j ∈ attach_real_prices oracle ideas, j.price.isSome = true) := by
  have hmap : attach_real_prices oracle ideas =
      ideas.map (fun idea =>
        { idea with price := some ((oracle idea.ticker).getD
            ((idea.target_price.getD 100) * (9 / 10))) }) := by
    unfold attach_real_prices
    apply List.map_congr_left
    intro idea hidea
    have hmem : idea.ticker ∈ ideas.map (fun i => i.ticker) :=
      List.mem_map.mpr ⟨idea, hidea, rfl⟩
    rw [lookup_batch oracle _ idea.ticker hmem]
    cases oracle idea.ticker with
    | some p => rfl
    | none => rfl
  refine ⟨hmap, ?_⟩
  intro j hj
  rw [hmap] at hj
  rcases List.mem_map.mp hj with ⟨idea, _, rfl⟩
  rfl

/-- Claim C5 witness: with a real price for SBER only, the SBER idea gets
the real price 280 and the GAZP idea gets its target 200 times 0.9. -/
theorem ideas_price_attachment_witness :
    (attach_real_prices (fun t => if t == "SBER" then some 280 else none)
      [{ ticker := "SBER", action := "BUY", target_price := some 320,
         reasoning := "", price := none },
       { ticker := "GAZP", action := "BUY", target_price := some 200,
         reasoning := "", price := none }] =
      [{ ticker := "SBER", action := "BUY", target_price := some 320,
         reasoning := "", price := some 280 },
       { ticker := "GAZP", action := "BUY", target_price := some 200,
         reasoning := "", price := some 180 }]) := by
  rw [(ideas_price_attachment (fun t => if t == "SBER" then some 280 else none)
    [{ ticker := "SBER", action := "BUY", target_price := some 320,
       reasoning := "", price := none },
     { ticker := "GAZP", action := "BUY", target_price := some 200,
       reasoning := "", price := none }]).1]
  norm_num
  decide

/-- Claim C6: idea generation returns the empty list whenever no API key is
configured, the request raises, the response shape is bad, the content is
empty, the bracket extraction fails, or the JSON parse fails; and in every
case the result is either empty or exactly the price-attached parsed ideas
— never fabricated placeholders. -/
theorem get_investment_ideas_empty_on_failure (k : Bool)
    (req : RequestResult) (parse : String → Option (List Idea))
    (oracle : String → Option ℚ) :
    (get_investment_ideas false req parse oracle = [])
  ∧ (get_investment_ideas k .raised parse oracle = [])
  ∧ (get_investment_ideas k .badShape parse oracle = [])
  ∧ (∀ s, pyStrip s = "" →
      get_investment_ideas k (.content s) parse oracle = [])
  ∧ (∀ s, extract_json_array (pyStrip s) = none →
      get_investment_ideas k (.content s) parse oracle = [])
  ∧ (∀ s js, extract_json_array (pyStrip s) = some js → parse js = none →
      get_investment_ideas k (.content s) parse oracle = [])
  ∧ (get_investment_ideas k req parse oracle = [] ∨
      ∃ s js ideas, req = .content s ∧ extract_json_array (pyStrip s) = some js ∧
        parse js = some ideas ∧
        get_investment_ideas k req parse oracle =
          attach_real_prices oracle ideas) := by
  refine ⟨rfl, ?_, ?_, ?_, ?_, ?_, ?_⟩
  · cases k <;> rfl
  · cases k <;> rfl
  · intro s hs
    cases k with
    | false => rfl
    | true => simp [get_investment_ideas, hs]
  · intro s hx
    cases k with
    | false => rfl
    | true =>
      by_cases hs : pyStrip s = ""
      · simp [get_investment_ideas, hs]
      · simp [get_investment_ideas, hs, hx]
  · intro s js hx hp
    cases k with
    | false => rfl
    | true =>
      by_cases hs : pyStrip s = ""
      · simp [get_investment_ideas, hs]
      · by_cases hjs : pyStrip js = ""
        · simp [get_investment_ideas, hs, hx, hjs]
        · simp [get_investment_ideas, hs, hx, hjs, hp]
  · cases k with
    | false => exact Or.inl rfl
    | true =>
      cases req with
      | raised => exact Or.inl rfl
      | badShape => exact Or.inl rfl
      | content s =>
        by_cases hs : pyStrip s = ""
        · exact Or.inl (by simp [get_investment_ideas, hs])
        · cases hx : extract_json_array (pyStrip s) with
          | none => exact Or.inl (by simp [get_investment_ideas, hs, hx])
          | some js =>
            by_cases hjs : pyStrip js = ""
            · exact Or.inl (by simp [get_investment_ideas, hs, hx, hjs])
            · cases hp : parse js with
              | none => exact Or.inl (by simp [get_investment_ideas, hs, hx, hjs, hp])
              | some ideas =>
                refine Or.inr ⟨s, js, ideas, rfl, hx, hp, ?_⟩
                simp [get_investment_ideas, hs, hx, hjs, hp]

/-- Claim C6 witness: with a key configured, content that contains a JSON
array whose parse fails yields the empty list, and a missing key yields the
empty list. -/
theorem get_investment_ideas_empty_on_failure_witness :
    (get_investment_ideas true (.content "xx[1]yy") (fun _ => none)
      (fun _ => none) = [])
  ∧ (get_investment_ideas false (.content "ok") (fun _ => some [])
      (fun _ => none) = []) := by
  constructor
  · exact (get_investment_ideas_empty_on_failure true (.content "xx[1]yy")
      (fun _ => none) (fun _ => none)).2.2.2.2.2.1 "xx[1]yy" "[1]" (by decide) rfl
  · exact (get_investment_ideas_empty_on_failure false (.content "ok")
      (fun _ => some []) (fun _ => none)).1

/-- Claim C7 counterexample: writing a setting for a user with no settings
row does not insert one — the UPDATE matches no row and the table stays
empty, contradicting the claimed guarantee that a settings row exists after
a write. -/
theorem update_user_settings_no_insert :
    update_user_settings [] 1 { risk_level := some "high" } = ([] : List UserSettings)
  ∧ (update_user_settings [] 1 { risk_level := some "high" }).find?
      (fun r => r.user_id == 1) = none := by
  exact ⟨rfl, rfl⟩

/-- Claim C7 (amended): the settings write updates exactly the supplied
columns of the existing row for the user, leaves every other column of that
row and every other user's row unchanged, and — when no settings row exists
for the user — changes nothing and inserts nothing. -/
theorem update_user_settings_frame (tbl : List UserSettings) (u : Int)
    (k : SettingsUpdate) :
    ((∀ s ∈ tbl, s.user_id ≠ u) → update_user_settings tbl u k = tbl)
  ∧ (∀ s, tbl.find? (fun r => r.user_id == u) = some s →
      (update_user_settings tbl u k).find? (fun r => r.user_id == u) =
        some (applySettingsUpdate s k))
  ∧ (∀ s ∈ tbl, s.user_id ≠ u → s ∈ update_user_settings tbl u k)
  ∧ (∀ s : UserSettings,
      (k.risk_level = none →
        (applySettingsUpdate s k).risk_level = s.risk_level) ∧
      (k.max_investment_amount = none →
        (applySettingsUpdate s k).max_investment_amount = s.max_investment_amount) ∧
      (k.auto_invest = none →
        (applySettingsUpdate s k).auto_invest = s.auto_invest) ∧
      (k.notifications = none →
        (applySettingsUpdate s k).notifications = s.notifications) ∧
      (k.daily_market_analysis = none →
        (applySettingsUpdate s k).daily_market_analysis = s.daily_market_analysis) ∧
      (k.weekly_portfolio_report = none →
        (applySettingsUpdate s k).weekly_portfolio_report = s.weekly_portfolio_report) ∧
      (k.target_price_alerts = none →
        (applySettingsUpdate s k).target_price_alerts = s.target_price_alerts) ∧
      (k.price_updates = none →
        (applySettingsUpdate s k).price_updates = s.price_updates) ∧
      (applySettingsUpdate s k).user_id = s.user_id) := by
  refine ⟨?_, ?_, ?_, ?_⟩
  · intro h
    unfold update_user_settings
    have h2 : tbl.map
        (fun s => if s.user_id == u then applySettingsUpdate s k else s) =
        tbl.map id :=
      List.map_congr_left (fun s hs => by
        simp [beq_eq_false_iff_ne.mpr (h s hs)])
    rw [h2, List.map_id]
  · intro s hf
    unfold update_user_settings
    rw [find?_map_update tbl (fun r => r.user_id == u)
      (fun r => applySettingsUpdate r k)
      (fun r => by simp [applySettingsUpdate])]
    rw [hf]
    rfl
  · intro s hs hne
    unfold update_user_settings
    exact List.mem_map.mpr ⟨s, hs, by simp [beq_eq_false_iff_ne.mpr hne]⟩
  · intro s
    refine ⟨?_, ?_, ?_, ?_, ?_, ?_, ?_, ?_, rfl⟩ <;>
      · intro h
        simp [applySettingsUpdate, h]

/-- Claim C7 amended-theorem witness: a write keyed to user 1 leaves user
2's row untouched, rewrites user 1's row with just the supplied column, and
keeps the unsupplied notifications column. -/
theorem update_user_settings_frame_witness :
    update_user_settings [defaultSettings 2] 1 { risk_level := some "high" } =
      [defaultSettings 2]
  ∧ (update_user_settings [defaultSettings 1] 1
      { risk_level := some "high" }).find? (fun r => r.user_id == 1) =
      some (applySettingsUpdate (defaultSettings 1) { risk_level := some "high" })
  ∧ (applySettingsUpdate (defaultSettings 1)
      { risk_level := some "high" }).notifications =
      (defaultSettings 1).notifications := by
  refine ⟨?_, ?_, ?_⟩
  · exact (update_user_settings_frame [defaultSettings 2] 1
      { risk_level := some "high" }).1 (by decide)
  · exact (update_user_settings_frame [defaultSettings 1] 1
      { risk_level := some "high" }).2.1 (defaultSettings 1) (by decide)
  · exact ((update_user_settings_frame [defaultSettings 1] 1
      { risk_level := some "high" }).2.2.2 (defaultSettings 1)).2.2.2.1 rfl

/-- Claim C8: a scheduler job pushes to a user only when both the job's
category toggle and the master notifications toggle of that user's settings
row are true; the settings table is keyed by user id (primary key), which
the uniqueness hypothesis expresses. -/
theorem notification_gating_conjunctive (ss : List UserSettings)
    (c : NotifCategory) (extraSend : Int → Bool) (u : Int)
    (hU : ∀ s1 ∈ ss, ∀ s2 ∈ ss, s1.user_id = s2.user_id → s1 = s2)
    (hrec : u ∈ jobRecipients ss c extraSend) :
    (get_user_settings ss u).notifications = true
  ∧ categoryToggle (get_user_settings ss u) c = true := by
  unfold jobRecipients at hrec
  rcases List.mem_map.mp hrec with ⟨s, hs, rfl⟩
  rcases List.mem_filter.mp hs with ⟨hs1, _⟩
  rcases List.mem_filter.mp hs1 with ⟨hs2, hnot⟩
  unfold get_users_with_notification_type at hs2
  rcases List.mem_filter.mp hs2 with ⟨hmem, hcat⟩
  cases hfind : ss.find? (fun r => r.user_id == s.user_id) with
  | none =>
    exfalso
    have h := List.find?_eq_none.mp hfind s hmem
    simp at h
  | some r =>
    have hrmem : r ∈ ss := List.mem_of_find?_eq_some hfind
    have hrid := List.find?_some hfind
    have hrs : r = s := hU r hrmem s hmem (by simpa using hrid)
    have hgu : get_user_settings ss s.user_id = s := by
      unfold get_user_settings
      rw [hfind, hrs]
    exact ⟨hnot, by rw [hgu]; exact hcat⟩

/-- Claim C8 witness: a user with both the master toggle and the
target-price category toggle on is a recipient, and the theorem yields both
toggles true for them. -/
theorem notification_gating_conjunctive_witness :
    (1 : Int) ∈ jobRecipients [defaultSettings 1] .targets (fun _ => true)
  ∧ (get_user_settings [defaultSettings 1] 1).notifications = true
  ∧ categoryToggle (get_user_settings [defaultSettings 1] 1) .targets = true := by
  have h := notification_gating_conjunctive [defaultSettings 1] .targets
    (fun _ => true) 1 (by decide) (by decide)
  exact ⟨by decide, h.1, h.2⟩

/-- Claim C9: when an analysis has a truthy current price and a truthy raw
target price, and the raw target is more than 5 times or less than 0.2 of
the current price, the corrected target stored for display is
current x 1.20 for BUY, x 0.85 for SELL and x 1.05 for HOLD (rounded to the
two decimal places at which prices are shown); otherwise the raw target is
kept unchanged. -/
theorem analyze_target_price_sanity (a : StockAnalysis) (t c : ℚ) (r : String)
    (ht : a.target_price = some t) (hc : a.current_price = some c)
    (ht0 : t ≠ 0) (hc0 : c ≠ 0) (hr : a.recommendation = some r) :
    (c * 5 < t ∨ t < c / 5 →
      ((r = "BUY" → (cmd_analyze_correct_target a).target_price =
          some (round2 (c * (6 / 5)))) ∧
       (r = "SELL" → (cmd_analyze_correct_target a).target_price =
          some (round2 (c * (17 / 20)))) ∧
       (r = "HOLD" → (cmd_analyze_correct_target a).target_price =
          some (round2 (c * (21 / 20))))))
  ∧ (¬(c * 5 < t ∨ t < c / 5) →
      (cmd_analyze_correct_target a).target_price = some t) := by
  have htr : truthy a.target_price = true := by rw [ht]; simp [truthy, ht0]
  have hcr : truthy a.current_price = true := by rw [hc]; simp [truthy, hc0]
  unfold cmd_analyze_correct_target
  rw [htr, hcr]
  simp only [Bool.and_self, if_true, ht, hc, hr, Option.getD_some]
  constructor
  · intro hcond
    rw [if_pos hcond]
    refine ⟨?_, ?_, ?_⟩
    · intro hrb
      subst hrb
      rw [if_pos rfl]
    · intro hrs
      subst hrs
      rw [if_neg (by decide), if_pos rfl]
    · intro hrh
      subst hrh
      rw [if_neg (by decide), if_neg (by decide)]
  · intro hcond
    rw [if_neg hcond]
    exact ht

/-- Claim C9 witness: a BUY analysis at current price 100 with raw target
2000 (more than 5 times the current price) is corrected to 120. -/
theorem analyze_target_price_sanity_witness :
    (cmd_analyze_correct_target
      { recommendation := some "BUY", target_price := some 2000,
        current_price := some 100 }).target_price = some 120 := by
  have h := ((analyze_target_price_sanity
    { recommendation := some "BUY", target_price := some 2000,
      current_price := some 100 }
    2000 100 "BUY" rfl rfl (by norm_num) (by norm_num) rfl).1
    (Or.inl (by norm_num))).1 rfl
  rw [h]
  norm_num [round2, round_eq]

/-- Claim C10: confirm_trade hands the selected idea's action string to
save_order verbatim as the order type; when its upper-casing is neither BUY
nor SELL, the order row is still inserted with status filled, the history
entry carries profit/loss 0, and the positions table is untouched. -/
theorem confirm_trade_nonbuysell_frame (db : DB) (u : Int) (idea : Idea)
    (q : Int) (total : ℚ) (oid : String) (p : ℚ)
    (hp : idea.price = some p)
    (hb : (pyUpper idea.action == "BUY") = false)
    (hs : (pyUpper idea.action == "SELL") = false)
    (hdup : ((db.orders.map (fun o => o.order_id)).contains oid) = false) :
    (confirm_trade db u idea q total oid).1 = true
  ∧ (confirm_trade db u idea q total oid).2.positions = db.positions
  ∧ (confirm_trade db u idea q total oid).2.orders =
      db.orders ++
        [{ user_id := u, order_id := oid, ticker := idea.ticker,
           quantity := q, price := p, order_type := idea.action,
           status := "filled", total_amount := total }]
  ∧ (confirm_trade db u idea q total oid).2.history =
      db.history ++
        [{ user_id := u, operation_type := pyLower idea.action,
           ticker := idea.ticker, quantity := q, price := p,
           total_amount := total, commission := 0, profit_loss := 0 }] := by
  unfold confirm_trade
  rw [hp]
  unfold save_order
  simp only [hdup, hb, hs, Bool.false_eq_true, if_false]
  exact ⟨by trivial, by trivial, by trivial, by trivial⟩

/-- Claim C10 witness: confirming an idea with action HOLD inserts a filled
order and a zero-profit history row, and leaves positions empty. -/
theorem confirm_trade_nonbuysell_frame_witness :
    (confirm_trade { positions := [], orders := [], history := [] } 1
      { ticker := "SBER", action := "HOLD", target_price := some 320,
        reasoning := "", price := some 280 } 5 1400 "ORD9").2.positions = []
  ∧ (confirm_trade { positions := [], orders := [], history := [] } 1
      { ticker := "SBER", action := "HOLD", target_price := some 320,
        reasoning := "", price := some 280 } 5 1400 "ORD9").2.history =
      [{ user_id := 1, operation_type := pyLower "HOLD", ticker := "SBER",
         quantity := 5, price := 280, total_amount := 1400, commission := 0,
         profit_loss := 0 }] := by
  have h := confirm_trade_nonbuysell_frame
    { positions := [], orders := [], history := [] } 1
    { ticker := "SBER", action := "HOLD", target_price := some 320,
      reasoning := "", price := some 280 } 5 1400 "ORD9" 280
    rfl (by decide) (by decide) (by decide)
  exact ⟨h.2.1, h.2.2.2⟩

end InvestBot
